import Mathlib

/-! Shallow embedding of the group-discussion turn orchestration of the
IntervYouAI frontend: the mock discussion socket
(`frontend/src/hooks/useMockGDSocket.js`) and the GD room page
(`frontend/src/pages/gd-room/index.jsx`, both the audio-driven variant and
the speech-recognition variant), together with theorems checking the
spec's claims about turn scheduling, interruption windows, transcript
growth and error handling. -/

namespace IntervYou

/-- A participant record as built by the mock socket's `create_session`
branch: `{ id, name, personality, is_human }`. -/
structure Participant where
  id : String
  name : String
  personality : String
  is_human : Bool
deriving DecidableEq

/-- `botPersonalities` of useMockGDSocket.js: persona key paired with the
display name. -/
def botPersonalities : List (String × String) :=
  [("supportive", "Alex"), ("assertive", "Sam"), ("factual", "Jordan"),
   ("analytical", "Casey"), ("creative", "Morgan")]

/-- `botResponses` of useMockGDSocket.js: canned replies per personality. -/
def botResponses : List (String × List String) :=
  [("supportive",
    ["I agree with that point. It's important to consider everyone's perspective.",
     "That's a great idea. Building on that, I think we could also...",
     "I really like how you've framed that. It helps clarify the issue for me."]),
   ("assertive",
    ["I see your point, but I think we need to be more direct. The core issue is...",
     "I have a strong opinion on this. We must prioritize the most impactful solution.",
     "Let's challenge that assumption. Is there data to support it?"]),
   ("factual",
    ["According to recent studies, the trend shows that...",
     "Let's stick to the data. The numbers indicate that...",
     "From a purely factual standpoint, we have to acknowledge..."]),
   ("analytical",
    ["Let's break this down. What are the pros and cons of that approach?",
     "If we look at this from another angle, we might see...",
     "I think there are a few components to this problem we need to separate."]),
   ("creative",
    ["What if we thought about this completely differently? For example...",
     "Here's a wild idea, but it might just work. What if we...",
     "That makes me think of an unconventional solution. Let's explore it."])]

/-- Payload of one outbound mock-socket event. -/
inductive OutData where
  | sessionPayload (session_id topic : String) (participants : List Participant)
  | messagePayload (speaker_id message : String)
  | speakerPayload (speaker_id : String)
deriving DecidableEq

/-- One `trigger(eventName, data)` call: the transport event name with its
payload, in emission order. -/
abbrev OutEvent := String × OutData

/-- The mock socket's React state: `participants` and `turnIndex`. -/
structure SocketState where
  participants : List Participant
  turnIndex : Nat
deriving DecidableEq

/-- Payload of one inbound event (`data.topic`, `data.num_bots`,
`data.message`); `num_bots = 0` stands for a missing or zero field, both
falsy in `data.num_bots || 4`. -/
structure InData where
  topic : String := ""
  num_bots : Nat := 0
  message : String := ""
deriving DecidableEq

/-- The random draws one `handleEvent` call consumes: `shuffled` is the key
order `Object.keys(botPersonalities).sort(() => 0.5 - Math.random())`
produced (always some permutation of the five keys), and `r` models the
index `Math.floor(Math.random() * responses.length)` picked for the reply
(taken modulo the list length, as the JS draw is always in range). -/
structure Oracle where
  shuffled : List String := []
  r : Nat := 0
deriving DecidableEq

/-- The fixed human participant prepended in `create_session`. -/
def humanParticipant : Participant :=
  { id := "human_user", name := "You", personality := "human", is_human := true }

/-- `{ id: bot_(key), name: botPersonalities[key].name, personality: key,
is_human: false }`. -/
def mkBot (key : String) : Participant :=
  { id := "bot_" ++ key, name := (botPersonalities.lookup key).getD "",
    personality := key, is_human := false }

/-- The participant list `create_session` installs: the human, then the
first `num_bots || 4` keys of the shuffled catalog, mapped to bots. -/
def createSessionParticipants (shuffled : List String) (num_bots : Nat) :
    List Participant :=
  humanParticipant :: (shuffled.take (if num_bots = 0 then 4 else num_bots)).map mkBot

/-- The moderator's opening message for `topic`. -/
def moderatorMessage (topic : String) : String :=
  "Welcome everyone to today's group discussion on: \"" ++ topic ++
    "\". Let's begin with opening thoughts. Who would like to start?"

/-- The `user_message` branch of `handleEvent`: echo the human message; if
the bot sublist is empty, stop; otherwise grant the turn to
`bots[turnIndex % bots.length]`, bump `turnIndex`, emit the bot's reply and
hand the floor back to the human. -/
def userMessage (o : Oracle) (s : SocketState) (msg : String) :
    SocketState × List OutEvent :=
  let bots := s.participants.filter (fun p => !p.is_human)
  if bots.length = 0 then
    (s, [("new_message", .messagePayload "human_user" msg)])
  else
    let nextBot := bots.getD (s.turnIndex % bots.length) humanParticipant
    let responses := (botResponses.lookup nextBot.personality).getD
      ["That's an interesting point."]
    let response := responses.getD (o.r % responses.length) ""
    ({ s with turnIndex := s.turnIndex + 1 },
      [("new_message", .messagePayload "human_user" msg),
       ("speaker_change", .speakerPayload nextBot.id),
       ("new_message", .messagePayload nextBot.id response),
       ("speaker_change", .speakerPayload "human_user")])

/-- `handleEvent` of useMockGDSocket.js: dispatch on the inbound event name;
every name other than `create_session` and `user_message` falls through to
the default no-op branch. -/
def handleEvent (o : Oracle) (s : SocketState) (eventName : String)
    (data : InData) : SocketState × List OutEvent :=
  if eventName = "create_session" then
    let parts := createSessionParticipants o.shuffled data.num_bots
    ({ s with participants := parts },
      [("session_created", .sessionPayload "mock_session_123" data.topic parts),
       ("new_message", .messagePayload "moderator" (moderatorMessage data.topic)),
       ("speaker_change", .speakerPayload "human_user")])
  else if eventName = "user_message" then
    userMessage o s data.message
  else (s, [])

/-- One inbound transport event with the random draws its handling consumes. -/
structure Inbound where
  name : String
  data : InData
  oracle : Oracle
deriving DecidableEq

/-- Process a list of inbound events in order (the transport serializes
them), concatenating the triggered outbound events. -/
def runEvents (s : SocketState) : List Inbound → SocketState × List OutEvent
  | [] => (s, [])
  | e :: rest =>
    let r := handleEvent e.oracle s e.name e.data
    let r2 := runEvents r.1 rest
    (r2.1, r.2 ++ r2.2)

/-- The bot sublist, `participants.filter(p => !p.is_human)`. -/
def gdBots (s : SocketState) : List Participant :=
  s.participants.filter (fun p => !p.is_human)

/-- The id carried by an emitted `speaker_change` granting a bot the floor
(`none` for any other event, including the hand-backs to the human). -/
def turnIdOf (e : OutEvent) : Option String :=
  match e with
  | (n, OutData.speakerPayload sid) =>
    if n = "speaker_change" then
      if sid = "human_user" then none else some sid
    else none
  | _ => none

/-- The ids of the bots granted a turn, read off an emitted event list. -/
def botTurnIds (evs : List OutEvent) : List String :=
  evs.filterMap turnIdOf

/-! ## The GD room page (gd-room/index.jsx, audio-driven variant)

React state and handlers of the `GDRoom` component: the transcript list,
the interruption-window countdown and the recording flags.  Wall-clock time
is discretized: one `tick` action stands for one firing of the 1-second
`setTimeout` chain of the countdown effect, and `audio_ended` for the
playback-complete callback passed to `playAudioFromBase64`. -/

/-- One transcript entry as the page stores it (`timestamp` not modelled). -/
structure Msg where
  speaker_id : String
  speaker_name : Option String
  message : String
deriving DecidableEq

/-- The `GDRoom` component state the modelled handlers read or write.
`playing` records the speaker of the audio currently playing, so that the
playback-complete callback knows whom it was registered for. -/
structure PageState where
  messages : List Msg
  activeSpeakerId : Option String
  isAISpeaking : Bool
  isAIPlaying : Bool
  isTranscribing : Bool
  isRecording : Bool
  interruptionTimer : Nat
  isInterruptionWindow : Bool
  playing : Option String
deriving DecidableEq

/-- Events the page emits on the socket in the modelled handlers. -/
inductive PageOut where
  | pass_turn
  | gd_audio_chunk
  | end_discussion
deriving DecidableEq

/-- The inputs that drive the modelled page state: inbound socket events,
the playback-complete callback, one-second countdown ticks and the
recorder's transitions. -/
inductive PageAction where
  | new_message (speaker_id : String) (speaker_name : Option String)
      (message : String) (audio : Bool)
  | audio_ended
  | speaker_change (speaker_id : String)
  | start_turn_window
  | user_message_processed (transcript : String)
  | tick
  | start_recording
  | stop_recording
  | end_session
deriving DecidableEq

/-- `startInterruption`: arm the 5-second window. -/
def startInterruption (s : PageState) : PageState :=
  { s with interruptionTimer := 5, isInterruptionWindow := true,
           isAISpeaking := false }

/-- One step of the page: the handler (or effect) the action triggers.

* `new_message`: `handleNewMessage` appends the entry; with audio it starts
  playback, otherwise nothing more happens.
* `audio_ended`: the `playAudioFromBase64` completion callback; it opens the
  interruption window only when the finished speaker is neither the
  moderator nor the human.
* `tick`: one firing of the countdown `setTimeout`; when the timer reaches
  zero with the window still open, the expiry effect closes the window and,
  unless recording, emits `pass_turn`.
* `start_recording`: the recording-cancels-window effect zeroes the timer
  and closes the window.
* `stop_recording`: the `audioBlob` effect sends `gd_audio_chunk`. -/
def pageStep (s : PageState) : PageAction → PageState × List PageOut
  | .new_message sid nm m audio =>
    let s1 := { s with messages := s.messages ++ [⟨sid, nm, m⟩],
                       isAISpeaking := false }
    if audio then ({ s1 with isAIPlaying := true, playing := some sid }, [])
    else (s1, [])
  | .audio_ended =>
    match s.playing with
    | none => (s, [])
    | some sid =>
      let s1 := { s with isAIPlaying := false, playing := none }
      if sid ≠ "moderator" ∧ sid ≠ "human_user" then (startInterruption s1, [])
      else (s1, [])
  | .speaker_change sid =>
    ({ s with activeSpeakerId := some sid,
              isAISpeaking := decide (sid ≠ "human_user") }, [])
  | .start_turn_window =>
    ({ s with interruptionTimer := 0, isInterruptionWindow := false,
              isAISpeaking := false }, [])
  | .user_message_processed t =>
    ({ s with messages := s.messages ++ [⟨"human_user", some "You", t⟩],
              isTranscribing := false, isAISpeaking := true }, [])
  | .tick =>
    if s.interruptionTimer = 0 then (s, [])
    else
      let t := s.interruptionTimer - 1
      if t = 0 ∧ s.isInterruptionWindow then
        if s.isRecording then
          ({ s with interruptionTimer := 0, isInterruptionWindow := false }, [])
        else
          ({ s with interruptionTimer := 0, isInterruptionWindow := false,
                    isAISpeaking := true }, [.pass_turn])
      else ({ s with interruptionTimer := t }, [])
  | .start_recording =>
    let s1 := { s with isRecording := true }
    if s1.isInterruptionWindow then
      ({ s1 with interruptionTimer := 0, isInterruptionWindow := false }, [])
    else (s1, [])
  | .stop_recording =>
    ({ s with isRecording := false, isTranscribing := true }, [.gd_audio_chunk])
  | .end_session => (s, [.end_discussion])

/-- `n` consecutive countdown ticks with no other action interleaved,
collecting everything emitted. -/
def iterTick (s : PageState) : Nat → PageState × List PageOut
  | 0 => (s, [])
  | n + 1 =>
    let r := pageStep s .tick
    let r2 := iterTick r.1 n
    (r2.1, r.2 ++ r2.2)

/-- Modelled from the spec: the backend discussion orchestrator's reaction to
`pass_turn` (the FastAPI backend is not among the staged sources, only its
frontend callers are).  Per the TurnScheduler section, the next speaker is
`bots[cursor % len(bots)]` and the cursor advances by one for the completed
turn; with no bots the scheduling is a no-op. -/
def backendPassTurn (bots : List String) (cursor : Nat) : Option String × Nat :=
  if bots.length = 0 then (none, cursor)
  else (some (bots.getD (cursor % bots.length) ""), cursor + 1)

/-! ## The GD room page (speech-recognition variant)

The second `GDRoom` draft in gd-room/index.jsx sends typed/recognized text
with `handleSendMessage`, which drops blank input before emitting. -/

/-- The code points JavaScript's `String.prototype.trim` removes:
WhiteSpace (tab, VT, FF, space, NBSP, ZWNBSP and the Space_Separator
category) and LineTerminator (LF, CR, LS, PS). -/
def jsWhitespace : List Nat :=
  [9, 10, 11, 12, 13, 32, 160, 0x1680, 0x2000, 0x2001, 0x2002, 0x2003,
   0x2004, 0x2005, 0x2006, 0x2007, 0x2008, 0x2009, 0x200A, 0x2028, 0x2029,
   0x202F, 0x205F, 0x3000, 0xFEFF]

/-- Whether `String.prototype.trim` strips the character `c`. -/
def isJsWhitespace (c : Char) : Bool :=
  jsWhitespace.contains c.toNat

/-- JavaScript's `messageText.trim()`: leading and trailing whitespace
removed. -/
def jsTrim (s : String) : String :=
  ⟨((s.data.dropWhile isJsWhitespace).reverse.dropWhile isJsWhitespace).reverse⟩

/-- The second variant's component state the modelled handler touches. -/
structure GDRoomV2State where
  messages : List Msg
  activeSpeakerId : Option String
  isAISpeaking : Bool
  turnTimer : Nat
  sttTranscript : String
deriving DecidableEq

/-- Events the second variant emits in the modelled handler. -/
inductive V2Out where
  | user_message (session_id message : String)
deriving DecidableEq

/-- `handleSendMessage` of the speech-recognition variant: blank text (after
`trim()`) returns before anything is emitted or reset; otherwise the text is
sent as `user_message` and the recognizer transcript is reset. -/
def handleSendMessage (session_id : String) (s : GDRoomV2State)
    (messageText : String) : GDRoomV2State × List V2Out :=
  if jsTrim messageText = "" then (s, [])
  else ({ s with sttTranscript := "" }, [V2Out.user_message session_id messageText])

/-! ## Observers and sample data used by the theorems -/

/-- The roster installed by a `create_session` event. -/
def rosterOf (o : Oracle) (s : SocketState) (data : InData) : List Participant :=
  (handleEvent o s "create_session" data).1.participants

/-- Every `new_message` naming a bot is directly preceded by the
`speaker_change` that granted that bot the floor. -/
def pairedOut (l : List OutEvent) : Prop :=
  ∀ j sid m, l[j]? = some ("new_message", OutData.messagePayload sid m) →
    sid ≠ "human_user" → sid ≠ "moderator" →
    ∃ j', j = j' + 1 ∧
      l[j']? = some ("speaker_change", OutData.speakerPayload sid)

/-- The catalog keys in declaration order: one concrete outcome of the
random shuffle (`Array.prototype.sort` always returns a permutation). -/
def orderedShuffle : List String :=
  ["supportive", "assertive", "factual", "analytical", "creative"]

/-- A page state with nothing pending. -/
def quiescentPage : PageState :=
  { messages := [], activeSpeakerId := none, isAISpeaking := false,
    isAIPlaying := false, isTranscribing := false, isRecording := false,
    interruptionTimer := 0, isInterruptionWindow := false, playing := none }

/-- A page state with an open interruption window at 3 seconds. -/
def armedPage : PageState :=
  { quiescentPage with interruptionTimer := 3, isInterruptionWindow := true }

/-- A page state while a bot utterance's audio is playing. -/
def playingPage : PageState :=
  { quiescentPage with isAIPlaying := true, playing := some "bot_assertive" }

/-- A bot `new_message` that arrived without audio (synthesis failed). -/
def noAudioMsg : PageAction :=
  .new_message "bot_supportive" (some "Alex")
    "According to recent studies, the trend shows that..." false

/-- A mock-socket state after a session with two bots was created. -/
def sampleSocketState : SocketState :=
  { participants := [humanParticipant, mkBot "supportive", mkBot "assertive"],
    turnIndex := 0 }

/-- Three consecutive `user_message` events. -/
def sampleInputs : List Inbound :=
  [{ name := "user_message", data := { message := "Hello" }, oracle := {} },
   { name := "user_message", data := { message := "I think so" }, oracle := { r := 1 } },
   { name := "user_message", data := { message := "Agreed" }, oracle := { r := 2 } }]

/-- An idle state of the speech-recognition page variant. -/
def sampleV2State : GDRoomV2State :=
  { messages := [], activeSpeakerId := none, isAISpeaking := false,
    turnTimer := 0, sttTranscript := "" }

/-! ## Helper lemmas -/

/-- With the countdown at zero, the tick effect never does anything again:
no further event is emitted and the state is a fixed point. -/
theorem iterTick_timer_zero (s : PageState) (h : s.interruptionTimer = 0) :
    ∀ n, iterTick s n = (s, []) := by
  intro n
  induction n with
  | zero => rfl
  | succ n ih => simp [iterTick, pageStep, h, ih]

/-- A string of whitespace-only characters trims to the empty string. -/
theorem jsTrim_eq_empty (t : String)
    (h : ∀ c ∈ t.data, isJsWhitespace c = true) : jsTrim t = "" := by
  have hd : t.data.dropWhile isJsWhitespace = [] :=
    List.dropWhile_eq_nil_iff.2 fun x hx => h x hx
  simp [jsTrim, hd]

/-- `user_message` handling never touches the participant list. -/
theorem userMessage_participants (o : Oracle) (s : SocketState) (m : String) :
    (userMessage o s m).1.participants = s.participants := by
  unfold userMessage
  dsimp only
  split
  · rfl
  · rfl

/-- Appending to a fixed string on the left is injective. -/
theorem string_append_left_cancel {p a b : String} (h : p ++ a = p ++ b) :
    a = b := by
  obtain ⟨lp⟩ := p
  obtain ⟨la⟩ := a
  obtain ⟨lb⟩ := b
  have h2 : lp ++ la = lp ++ lb := congrArg String.data h
  exact congrArg String.mk (List.append_cancel_left h2)

/-! ## Claim theorems -/

/-- C10: for every inbound event name other than `create_session` and
`user_message` (including `pass_turn` and `end_discussion`), the mock
socket's emit is a no-op: participants and turn cursor are unchanged and no
outbound event is triggered. -/
theorem handleEvent_default_noop (o : Oracle) (s : SocketState) (nm : String)
    (data : InData) (h1 : nm ≠ "create_session") (h2 : nm ≠ "user_message") :
    handleEvent o s nm data = (s, []) := by
  simp [handleEvent, h1, h2]

/-- Witness for C10 at the concrete names `pass_turn` and `end_discussion`. -/
theorem handleEvent_default_noop_witness :
    handleEvent {} ⟨[], 0⟩ "pass_turn" {} = (⟨[], 0⟩, []) ∧
    handleEvent {} ⟨[], 0⟩ "end_discussion" {} = (⟨[], 0⟩, []) :=
  ⟨handleEvent_default_noop _ _ _ _ (by decide) (by decide),
   handleEvent_default_noop _ _ _ _ (by decide) (by decide)⟩

/-- C6: an empty or whitespace-only human utterance is dropped by
`handleSendMessage` before anything happens: no transcript entry, no
emitted `user_message`, and the component state is exactly as it was, so
the human may retry. -/
theorem handleSendMessage_blank (session_id : String) (s : GDRoomV2State)
    (t : String) (h : ∀ c ∈ t.data, isJsWhitespace c = true) :
    handleSendMessage session_id s t = (s, []) := by
  simp [handleSendMessage, jsTrim_eq_empty t h]

/-- Witness for C6 on a whitespace-only utterance. -/
theorem handleSendMessage_blank_witness :
    (∀ c ∈ ("  \t ").data, isJsWhitespace c = true) ∧
    handleSendMessage "mock_session_123" sampleV2State "  \t " =
      (sampleV2State, []) :=
  ⟨by decide, handleSendMessage_blank _ _ _ (by decide)⟩

/-- C4: starting to record while the interruption window is open cancels the
window at once: the timer is zeroed, nothing is emitted, and no number of
later ticks ever fires the expiry action, so no `pass_turn` is sent and the
(modelled backend's) scheduler cursor cannot advance for that window. -/
theorem recording_cancels_window (s : PageState)
    (hw : s.isInterruptionWindow = true) :
    (pageStep s .start_recording).2 = [] ∧
    (pageStep s .start_recording).1.isInterruptionWindow = false ∧
    (pageStep s .start_recording).1.interruptionTimer = 0 ∧
    (pageStep s .start_recording).1.isRecording = true ∧
    ∀ n, iterTick (pageStep s .start_recording).1 n
      = ((pageStep s .start_recording).1, []) := by
  have hs : pageStep s .start_recording
      = ({ s with isRecording := true, interruptionTimer := 0,
                  isInterruptionWindow := false }, []) := by
    simp [pageStep, hw]
  refine ⟨by rw [hs], by rw [hs], by rw [hs], by rw [hs], ?_⟩
  intro n
  rw [hs]
  exact iterTick_timer_zero _ rfl n

/-- Witness for C4 at a page state with the window open at 3 seconds. -/
theorem recording_cancels_window_witness :
    armedPage.isInterruptionWindow = true ∧
    (pageStep armedPage .start_recording).2 = [] ∧
    (pageStep armedPage .start_recording).1.isInterruptionWindow = false ∧
    iterTick (pageStep armedPage .start_recording).1 7
      = ((pageStep armedPage .start_recording).1, []) :=
  ⟨rfl, (recording_cancels_window armedPage rfl).1,
   (recording_cancels_window armedPage rfl).2.1,
   (recording_cancels_window armedPage rfl).2.2.2.2 7⟩

/-- C5 counterexample: a bot `new_message` without audio (failed synthesis)
appends the text-only entry but opens no interruption window at all — not
after any delay either: the resulting state is quiescent and five further
seconds of ticks emit nothing and change nothing, refuting the claim that
the window still opens after a fixed default delay. -/
theorem newMessage_noAudio_cex :
    (pageStep quiescentPage noAudioMsg).2 = [] ∧
    (pageStep quiescentPage noAudioMsg).1.messages =
      [⟨"bot_supportive", some "Alex",
        "According to recent studies, the trend shows that..."⟩] ∧
    (pageStep quiescentPage noAudioMsg).1.isInterruptionWindow = false ∧
    (pageStep quiescentPage noAudioMsg).1.interruptionTimer = 0 ∧
    iterTick (pageStep quiescentPage noAudioMsg).1 5
      = ((pageStep quiescentPage noAudioMsg).1, []) := by
  refine ⟨rfl, rfl, rfl, rfl, rfl⟩

/-- C5 (amended): a `new_message` arriving without audio is still delivered
as a text-only transcript entry, but no interruption window opens for it,
immediately or later — the window only ever opens from the playback-complete
callback of a message that carried audio. -/
theorem newMessage_noAudio_text_only (s : PageState) (sid : String)
    (nm : Option String) (m : String) :
    pageStep s (.new_message sid nm m false)
      = ({ s with messages := s.messages ++ [⟨sid, nm, m⟩],
                  isAISpeaking := false }, []) ∧
    (s.interruptionTimer = 0 →
      ∀ n, iterTick (pageStep s (.new_message sid nm m false)).1 n
        = ((pageStep s (.new_message sid nm m false)).1, [])) := by
  constructor
  · simp [pageStep]
  · intro h n
    exact iterTick_timer_zero _ (by simp [pageStep, h]) n

/-- C9: the page transcript is append-only and gapless: every action leaves
the message list unchanged or appends exactly one entry at the end (so the
old list is always an initial segment, entry positions stay strictly
increasing with no gaps, and no existing entry is mutated or removed), and
the two message handlers append exactly one entry each. -/
theorem pageMessages_append_only (s : PageState) (a : PageAction) :
    (pageStep s a).1.messages.take s.messages.length = s.messages ∧
    ((pageStep s a).1.messages = s.messages ∨
      ∃ e, (pageStep s a).1.messages = s.messages ++ [e]) ∧
    (∀ sid nm m audio,
      (pageStep s (.new_message sid nm m audio)).1.messages
        = s.messages ++ [⟨sid, nm, m⟩]) ∧
    (∀ t, (pageStep s (.user_message_processed t)).1.messages
        = s.messages ++ [⟨"human_user", some "You", t⟩]) := by
  have hmain : ∀ (b : PageAction), (pageStep s b).1.messages = s.messages ∨
      ∃ e, (pageStep s b).1.messages = s.messages ++ [e] := by
    intro b
    cases b with
    | new_message sid nm m audio =>
      cases audio <;> exact Or.inr ⟨⟨sid, nm, m⟩, by simp [pageStep]⟩
    | audio_ended =>
      refine Or.inl ?_
      cases hp : s.playing with
      | none => simp [pageStep, hp]
      | some sid =>
        simp only [pageStep, hp]
        split <;> simp [startInterruption]
    | tick =>
      refine Or.inl ?_
      simp only [pageStep]
      split
      · rfl
      · split
        · split <;> rfl
        · rfl
    | start_recording =>
      refine Or.inl ?_
      simp only [pageStep]
      split <;> rfl
    | user_message_processed t =>
      exact Or.inr ⟨⟨"human_user", some "You", t⟩, by simp [pageStep]⟩
    | _ => exact Or.inl (by simp [pageStep])
  refine ⟨?_, hmain a, ?_, ?_⟩
  · rcases hmain a with h | ⟨e, h⟩
    · rw [h, List.take_length]
    · rw [h, List.take_left]
  · intro sid nm m audio
    cases audio <;> simp [pageStep]
  · intro t
    simp [pageStep]

/-- C3: when a bot utterance's audio playback completes, a 5-second
interruption window opens; with the human never recording, the five
countdown ticks close the window and emit exactly one `pass_turn` for that
window (and nothing ever again afterwards), which the modelled backend
answers by scheduling `bots[cursor % len(bots)]` and advancing the cursor
by exactly one. -/
theorem interruption_window_five_seconds (s : PageState) (sid : String)
    (hp : s.playing = some sid) (hm : sid ≠ "moderator")
    (hh : sid ≠ "human_user") (hr : s.isRecording = false)
    (bots : List String) (c : Nat) (hb : bots.length ≠ 0) :
    (pageStep s .audio_ended).2 = [] ∧
    (pageStep s .audio_ended).1.interruptionTimer = 5 ∧
    (pageStep s .audio_ended).1.isInterruptionWindow = true ∧
    (iterTick (pageStep s .audio_ended).1 5).2 = [PageOut.pass_turn] ∧
    (iterTick (pageStep s .audio_ended).1 5).1.isInterruptionWindow = false ∧
    (iterTick (pageStep s .audio_ended).1 5).1.interruptionTimer = 0 ∧
    (∀ n, iterTick (iterTick (pageStep s .audio_ended).1 5).1 n
      = ((iterTick (pageStep s .audio_ended).1 5).1, [])) ∧
    backendPassTurn bots c
      = (some (bots.getD (c % bots.length) ""), c + 1) := by
  obtain ⟨msgs, act, ai, ap, itc, ir, t, w, pl⟩ := s
  dsimp only at hp hr
  subst hp
  subst hr
  have hstep : pageStep (PageState.mk msgs act ai ap itc false t w (some sid))
        .audio_ended
      = (PageState.mk msgs act false false itc false 5 true none, []) := by
    simp [pageStep, startInterruption, hm, hh]
  rw [hstep]
  refine ⟨rfl, rfl, rfl, rfl, rfl, rfl, ?_, ?_⟩
  · intro n
    exact iterTick_timer_zero _ rfl n
  · simp [backendPassTurn, hb]

/-- Witness for C3: a concrete playing bot utterance, two scheduled bots,
cursor 0. -/
theorem interruption_window_five_seconds_witness :
    playingPage.playing = some "bot_assertive" ∧
    playingPage.isRecording = false ∧
    (pageStep playingPage .audio_ended).1.interruptionTimer = 5 ∧
    (iterTick (pageStep playingPage .audio_ended).1 5).2
      = [PageOut.pass_turn] ∧
    backendPassTurn ["bot_supportive", "bot_assertive"] 0
      = (some "bot_supportive", 1) :=
  ⟨rfl, rfl,
   (interruption_window_five_seconds playingPage "bot_assertive" rfl
     (by decide) (by decide) rfl ["bot_supportive", "bot_assertive"] 0
     (by decide)).2.1,
   (interruption_window_five_seconds playingPage "bot_assertive" rfl
     (by decide) (by decide) rfl ["bot_supportive", "bot_assertive"] 0
     (by decide)).2.2.2.1,
   (interruption_window_five_seconds playingPage "bot_assertive" rfl
     (by decide) (by decide) rfl ["bot_supportive", "bot_assertive"] 0
     (by decide)).2.2.2.2.2.2.2⟩

/-- C2 counterexample: requesting 6 personas produces only 6 participants
(the catalog holds 5 personas, so `N + 1 = 7` fails), and no emitted event
is named `session_started` at all — the mock's session-start event is
`session_created`. -/
theorem mock_create_session_cex :
    (handleEvent ⟨orderedShuffle, 0⟩ ⟨[], 0⟩ "create_session"
        ⟨"Remote Work", 6, ""⟩).1.participants.length = 6 ∧
    ∀ e ∈ (handleEvent ⟨orderedShuffle, 0⟩ ⟨[], 0⟩ "create_session"
        ⟨"Remote Work", 6, ""⟩).2, e.1 ≠ "session_started" := by
  decide

/-- C2 (amended): for 1 ≤ N ≤ 5 (the catalog size), `create_session` with
topic T and `num_bots = N` triggers, in order, `session_created` (the
mock's name for the session-start event) listing exactly N+1 participants,
then a Moderator `new_message` as the first transcript event, then
`speaker_change` to the human — the human always opens.  The roster is one
human followed by N bots. -/
theorem mock_create_session_events (o : Oracle) (s : SocketState)
    (topic : String) (n : Nat) (hn1 : 1 ≤ n) (hn5 : n ≤ 5)
    (hperm : o.shuffled.Perm (botPersonalities.map Prod.fst)) :
    (handleEvent o s "create_session" ⟨topic, n, ""⟩).2
      = [("session_created", OutData.sessionPayload "mock_session_123" topic
            (createSessionParticipants o.shuffled n)),
         ("new_message",
            OutData.messagePayload "moderator" (moderatorMessage topic)),
         ("speaker_change", OutData.speakerPayload "human_user")] ∧
    (handleEvent o s "create_session" ⟨topic, n, ""⟩).1.participants
      = createSessionParticipants o.shuffled n ∧
    (createSessionParticipants o.shuffled n).length = n + 1 ∧
    (createSessionParticipants o.shuffled n).head? = some humanParticipant ∧
    humanParticipant.is_human = true ∧
    ∀ p ∈ (createSessionParticipants o.shuffled n).tail, p.is_human = false := by
  have hlen : o.shuffled.length = 5 := by
    have h := hperm.length_eq
    simpa [botPersonalities] using h
  have hne : ¬ n = 0 := by omega
  refine ⟨by simp [handleEvent], by simp [handleEvent], ?_,
    by simp [createSessionParticipants], rfl, ?_⟩
  · simp [createSessionParticipants, hne, hlen]
    omega
  · intro p hp
    simp [createSessionParticipants] at hp
    have hp2 : p ∈ List.map mkBot o.shuffled := List.mem_of_mem_take hp
    obtain ⟨k, _, rfl⟩ := List.mem_map.1 hp2
    rfl

/-- Witness for C2 (amended): Scenario A, topic "Remote Work", 3 personas. -/
theorem mock_create_session_events_witness :
    (1 ≤ 3 ∧ 3 ≤ 5 ∧ orderedShuffle.Perm (botPersonalities.map Prod.fst)) ∧
    (createSessionParticipants orderedShuffle 3).length = 3 + 1 ∧
    (handleEvent ⟨orderedShuffle, 0⟩ ⟨[], 0⟩ "create_session"
        ⟨"Remote Work", 3, ""⟩).2
      = [("session_created", OutData.sessionPayload "mock_session_123"
            "Remote Work" (createSessionParticipants orderedShuffle 3)),
         ("new_message",
            OutData.messagePayload "moderator" (moderatorMessage "Remote Work")),
         ("speaker_change", OutData.speakerPayload "human_user")] :=
  ⟨⟨by decide, by decide, by decide⟩,
   (mock_create_session_events ⟨orderedShuffle, 0⟩ ⟨[], 0⟩ "Remote Work" 3
     (by decide) (by decide) (by decide)).2.2.1,
   (mock_create_session_events ⟨orderedShuffle, 0⟩ ⟨[], 0⟩ "Remote Work" 3
     (by decide) (by decide) (by decide)).1⟩

/-- C8: the roster set by `create_session` is one human followed by bots
whose personas are pairwise distinct keys drawn without replacement from
the fixed catalog (the bots' ids are pairwise distinct too), and no other
inbound event ever changes the participant list, so the roster is fixed
after session start. -/
theorem roster_fixed_and_distinct (o : Oracle) (s : SocketState)
    (data : InData)
    (hperm : o.shuffled.Perm (botPersonalities.map Prod.fst)) :
    (rosterOf o s data).head? = some humanParticipant ∧
    (∀ p ∈ (rosterOf o s data).tail, p.is_human = false) ∧
    ((rosterOf o s data).tail.map Participant.personality).Nodup ∧
    ((rosterOf o s data).tail.map Participant.id).Nodup ∧
    (∀ p ∈ (rosterOf o s data).tail,
      p.personality ∈ botPersonalities.map Prod.fst) ∧
    ∀ (o2 : Oracle) (s2 : SocketState) (nm : String) (d2 : InData),
      nm ≠ "create_session" →
        (handleEvent o2 s2 nm d2).1.participants = s2.participants := by
  have hroster : rosterOf o s data
      = createSessionParticipants o.shuffled data.num_bots := by
    simp [rosterOf, handleEvent]
  have hnd : o.shuffled.Nodup := hperm.nodup_iff.2 (by decide)
  have htail : (rosterOf o s data).tail
      = ((o.shuffled.take
            (if data.num_bots = 0 then 4 else data.num_bots)).map mkBot) := by
    rw [hroster]
    rfl
  have htake :
      (o.shuffled.take
        (if data.num_bots = 0 then 4 else data.num_bots)).Nodup :=
    hnd.sublist (List.take_sublist _ _)
  refine ⟨by rw [hroster]; rfl, ?_, ?_, ?_, ?_, ?_⟩
  · intro p hp
    rw [htail] at hp
    obtain ⟨x, _, rfl⟩ := List.mem_map.1 hp
    rfl
  · rw [htail, List.map_map]
    have hcomp : Participant.personality ∘ mkBot = id := funext fun x => rfl
    rw [hcomp, List.map_id]
    exact htake
  · rw [htail, List.map_map]
    refine List.Nodup.map ?_ htake
    intro a b hab
    exact string_append_left_cancel hab
  · intro p hp
    rw [htail] at hp
    obtain ⟨x, hx, rfl⟩ := List.mem_map.1 hp
    exact hperm.subset (List.mem_of_mem_take hx)
  · intro o2 s2 nm d2 hne
    by_cases hu : nm = "user_message"
    · subst hu
      have he : handleEvent o2 s2 "user_message" d2
          = userMessage o2 s2 d2.message := by
        unfold handleEvent
        rw [if_neg (by decide), if_pos rfl]
      rw [he, userMessage_participants]
    · simp [handleEvent, hne, hu]

/-- Witness for C8 at the concrete ordered shuffle and `num_bots = 3`. -/
theorem roster_fixed_and_distinct_witness :
    orderedShuffle.Perm (botPersonalities.map Prod.fst) ∧
    (rosterOf ⟨orderedShuffle, 0⟩ ⟨[], 0⟩ { num_bots := 3 }).head?
      = some humanParticipant ∧
    ((rosterOf ⟨orderedShuffle, 0⟩ ⟨[], 0⟩ { num_bots := 3 }).tail.map
        Participant.personality).Nodup ∧
    (handleEvent {} sampleSocketState "end_discussion" {}).1.participants
      = sampleSocketState.participants :=
  ⟨by decide,
   (roster_fixed_and_distinct ⟨orderedShuffle, 0⟩ ⟨[], 0⟩ { num_bots := 3 }
     (by decide)).1,
   (roster_fixed_and_distinct ⟨orderedShuffle, 0⟩ ⟨[], 0⟩ { num_bots := 3 }
     (by decide)).2.2.1,
   (roster_fixed_and_distinct ⟨orderedShuffle, 0⟩ ⟨[], 0⟩ { num_bots := 3 }
     (by decide)).2.2.2.2.2 {} sampleSocketState "end_discussion" {}
     (by decide)⟩

/-- The empty event list is trivially paired. -/
theorem pairedOut_nil : pairedOut ([] : List OutEvent) := by
  intro j sid m hj
  simp at hj

/-- Pairing is preserved by concatenating event blocks: each bot
`new_message` finds its `speaker_change` inside its own block. -/
theorem pairedOut_append {a b : List OutEvent} (ha : pairedOut a)
    (hb : pairedOut b) : pairedOut (a ++ b) := by
  intro j sid m hj h1 h2
  by_cases hlt : j < a.length
  · rw [List.getElem?_append_left hlt] at hj
    obtain ⟨j', rfl, hj'⟩ := ha j sid m hj h1 h2
    refine ⟨j', rfl, ?_⟩
    rw [List.getElem?_append_left (by omega)]
    exact hj'
  · push_neg at hlt
    rw [List.getElem?_append_right hlt] at hj
    obtain ⟨j', hj'eq, hj'⟩ := hb (j - a.length) sid m hj h1 h2
    refine ⟨a.length + j', by omega, ?_⟩
    rw [List.getElem?_append_right (by omega)]
    have hsub : a.length + j' - a.length = j' := by omega
    rw [hsub]
    exact hj'

/-- The three events of the `create_session` block are paired: its only
`new_message` is the moderator's. -/
theorem pairedOut_create (topic : String) (parts : List Participant) :
    pairedOut
      [("session_created",
          OutData.sessionPayload "mock_session_123" topic parts),
       ("new_message",
          OutData.messagePayload "moderator" (moderatorMessage topic)),
       ("speaker_change", OutData.speakerPayload "human_user")] := by
  intro j sid m hj h1 h2
  match j with
  | 0 => simp at hj
  | 1 =>
    simp at hj
    exact absurd hj.1.symm h2
  | 2 => simp at hj
  | n + 3 => simp at hj

/-- The lone human echo (empty bot sublist) is paired. -/
theorem pairedOut_echo (msg : String) :
    pairedOut [("new_message", OutData.messagePayload "human_user" msg)] := by
  intro j sid m hj h1 h2
  match j with
  | 0 =>
    simp at hj
    exact absurd hj.1.symm h1
  | n + 1 => simp at hj

/-- A full `user_message` block is paired: the bot's `new_message` at index
2 is preceded by its `speaker_change` at index 1. -/
theorem pairedOut_user_block (msg nbid resp : String) :
    pairedOut
      [("new_message", OutData.messagePayload "human_user" msg),
       ("speaker_change", OutData.speakerPayload nbid),
       ("new_message", OutData.messagePayload nbid resp),
       ("speaker_change", OutData.speakerPayload "human_user")] := by
  intro j sid m hj h1 h2
  match j with
  | 0 =>
    simp at hj
    exact absurd hj.1.symm h1
  | 1 => simp at hj
  | 2 =>
    refine ⟨1, rfl, ?_⟩
    simp at hj
    simp [hj.1]
  | 3 => simp at hj
  | n + 4 => simp at hj

/-- Every event block one `handleEvent` call emits is paired. -/
theorem pairedOut_handleEvent (o : Oracle) (s : SocketState) (nm : String)
    (data : InData) : pairedOut (handleEvent o s nm data).2 := by
  unfold handleEvent
  by_cases h1 : nm = "create_session"
  · rw [if_pos h1]
    exact pairedOut_create data.topic _
  · rw [if_neg h1]
    by_cases h2 : nm = "user_message"
    · rw [if_pos h2]
      unfold userMessage
      dsimp only
      split
      · exact pairedOut_echo data.message
      · exact pairedOut_user_block data.message _ _
    · rw [if_neg h2]
      exact pairedOut_nil

/-- How often a residue appears among `0, …, M-1` modulo `N`. -/
theorem countP_range_mod (N i : Nat) (hN : 0 < N) (hi : i < N) (M : Nat) :
    (List.range M).countP (fun k => decide (k % N = i))
      = M / N + (if i < M % N then 1 else 0) := by
  induction M with
  | zero => simp
  | succ M ih =>
    rw [List.range_succ, List.countP_append, ih]
    have hd := Nat.div_add_mod M N
    have hmlt : M % N < N := Nat.mod_lt _ hN
    have hmul : N * (M / N + 1) = N * (M / N) + N := Nat.mul_succ N (M / N)
    by_cases hr : M % N + 1 = N
    · have h1 : M + 1 = N * (M / N + 1) := by omega
      have hdiv : (M + 1) / N = M / N + 1 := by
        rw [h1, Nat.mul_div_cancel_left _ hN]
      have hmod : (M + 1) % N = 0 := by rw [h1, Nat.mul_mod_right]
      rw [hdiv, hmod]
      simp only [List.countP_cons, List.countP_nil, decide_eq_true_eq]
      split_ifs <;> omega
    · have h1 : M + 1 = N * (M / N) + (M % N + 1) := by omega
      have hlt : M % N + 1 < N := by omega
      have hdiv : (M + 1) / N = M / N := by
        rw [h1, Nat.mul_add_div hN, Nat.div_eq_of_lt hlt, Nat.add_zero]
      have hmod : (M + 1) % N = M % N + 1 := by
        rw [h1, Nat.mul_add_mod, Nat.mod_eq_of_lt hlt]
      rw [hdiv, hmod]
      simp only [List.countP_cons, List.countP_nil, decide_eq_true_eq]
      split_ifs <;> omega

/-- `(M + N - 1) / N` is the ceiling of `M / N`. -/
theorem ceil_div_eq (M N : Nat) (hN : 0 < N) :
    (M + N - 1) / N = M / N + (if M % N = 0 then 0 else 1) := by
  have hd := Nat.div_add_mod M N
  have hmlt : M % N < N := Nat.mod_lt _ hN
  have hmul : N * (M / N + 1) = N * (M / N) + N := Nat.mul_succ N (M / N)
  by_cases h0 : M % N = 0
  · have h1 : M + N - 1 = N * (M / N) + (N - 1) := by omega
    rw [h1, Nat.mul_add_div hN]
    rw [Nat.div_eq_of_lt (show N - 1 < N by omega)]
    simp [h0]
  · have h1 : M + N - 1 = N * (M / N + 1) + (M % N - 1) := by omega
    rw [h1, Nat.mul_add_div hN]
    rw [Nat.div_eq_of_lt (show M % N - 1 < N by omega)]
    simp [h0]

/-- Each residue class occurs between `⌊M/N⌋` and `⌈M/N⌉` times among the
first `M` naturals. -/
theorem countP_range_mod_bounds (N i M : Nat) (hN : 0 < N) (hi : i < N) :
    M / N ≤ (List.range M).countP (fun k => decide (k % N = i)) ∧
    (List.range M).countP (fun k => decide (k % N = i))
      ≤ (M + N - 1) / N := by
  rw [countP_range_mod N i hN hi M, ceil_div_eq M N hN]
  have hmlt : M % N < N := Nat.mod_lt _ hN
  constructor
  · split_ifs <;> omega
  · split_ifs <;> omega

/-- `botTurnIds` distributes over concatenation. -/
theorem botTurnIds_append (a b : List OutEvent) :
    botTurnIds (a ++ b) = botTurnIds a ++ botTurnIds b :=
  List.filterMap_append a b turnIdOf

/-- One `user_message` step with a non-empty bot sublist: participants are
untouched, the cursor advances by exactly one, and the single granted bot
turn is `bots[turnIndex % len(bots)]`. -/
theorem userMessage_step (o : Oracle) (s : SocketState) (msg : String)
    (hb : (gdBots s).length ≠ 0)
    (hhu : ∀ p ∈ gdBots s, p.id ≠ "human_user") :
    (userMessage o s msg).1.participants = s.participants ∧
    (userMessage o s msg).1.turnIndex = s.turnIndex + 1 ∧
    botTurnIds (userMessage o s msg).2
      = [((gdBots s).getD (s.turnIndex % (gdBots s).length)
            humanParticipant).id] := by
  have hpos : 0 < (gdBots s).length := Nat.pos_of_ne_zero hb
  have hlt : s.turnIndex % (gdBots s).length < (gdBots s).length :=
    Nat.mod_lt _ hpos
  have hid : ((gdBots s).getD (s.turnIndex % (gdBots s).length)
      humanParticipant).id ≠ "human_user" := by
    rw [List.getD_eq_getElem _ _ hlt]
    exact hhu _ (List.getElem_mem _)
  have hbranch : ¬ (s.participants.filter (fun p => !p.is_human)).length = 0 := by
    simpa [gdBots] using hb
  refine ⟨?_, ?_, ?_⟩
  · exact userMessage_participants o s msg
  · unfold userMessage
    dsimp only
    rw [if_neg hbranch]
  · unfold userMessage
    dsimp only
    rw [if_neg hbranch]
    simp only [List.getD_eq_getElem?_getD, gdBots] at hid ⊢
    simp [botTurnIds, turnIdOf, hid]

/-- A run made only of `user_message` events: participants stay fixed, the
cursor advances once per event, and the granted bot turns are exactly
`bots[(turnIndex + k) % len(bots)]` for `k = 0, …, M-1`. -/
theorem run_user_messages (inputs : List Inbound) :
    ∀ (s : SocketState),
      (gdBots s).length ≠ 0 →
      (∀ p ∈ gdBots s, p.id ≠ "human_user") →
      (∀ e ∈ inputs, e.name = "user_message") →
      (runEvents s inputs).1.participants = s.participants ∧
      (runEvents s inputs).1.turnIndex = s.turnIndex + inputs.length ∧
      botTurnIds (runEvents s inputs).2
        = (List.range inputs.length).map
            (fun k => ((gdBots s).getD
                ((s.turnIndex + k) % (gdBots s).length) humanParticipant).id) := by
  induction inputs with
  | nil =>
    intro s _ _ _
    exact ⟨rfl, rfl, by simp [runEvents, botTurnIds]⟩
  | cons e rest ih =>
    intro s hb hhu hall
    have hname : e.name = "user_message" := hall e (List.mem_cons_self _ _)
    have hev : handleEvent e.oracle s e.name e.data
        = userMessage e.oracle s e.data.message := by
      rw [hname]
      unfold handleEvent
      rw [if_neg (by decide), if_pos rfl]
    have hstep := userMessage_step e.oracle s e.data.message hb hhu
    have hbots1 : gdBots (userMessage e.oracle s e.data.message).1
        = gdBots s := by
      simp [gdBots, hstep.1]
    have ihr := ih (userMessage e.oracle s e.data.message).1
      (by rw [hbots1]; exact hb) (by rw [hbots1]; exact hhu)
      (fun x hx => hall x (List.mem_cons_of_mem _ hx))
    refine ⟨?_, ?_, ?_⟩
    · simp only [runEvents, hev]
      rw [ihr.1, hstep.1]
    · simp only [runEvents, hev]
      rw [ihr.2.1, hstep.2.1, List.length_cons]
      omega
    · simp only [runEvents, hev]
      have h3 := ihr.2.2
      simp only [hbots1, hstep.2.1] at h3
      rw [botTurnIds_append, hstep.2.2, h3, List.length_cons,
        List.range_succ_eq_map, List.map_cons, List.map_map,
        List.singleton_append]
      congr 1
      apply List.map_congr_left
      intro k _
      have harg : s.turnIndex + 1 + k = s.turnIndex + (k + 1) := by omega
      rw [harg]
      rfl

/-- With pairwise-distinct bot ids, two scheduler indices granting the same
bot id are equal. -/
theorem botId_getD_inj (s : SocketState)
    (hnd : ((gdBots s).map Participant.id).Nodup)
    (a b : Nat) (ha : a < (gdBots s).length) (hb : b < (gdBots s).length) :
    (((gdBots s).getD a humanParticipant).id
        = ((gdBots s).getD b humanParticipant).id) ↔ a = b := by
  rw [List.getD_eq_getElem _ _ ha, List.getD_eq_getElem _ _ hb]
  have hla : a < ((gdBots s).map Participant.id).length := by
    rw [List.length_map]
    exact ha
  have hlb : b < ((gdBots s).map Participant.id).length := by
    rw [List.length_map]
    exact hb
  have hiff := @List.Nodup.getElem_inj_iff _ ((gdBots s).map Participant.id)
    hnd a hla b hlb
  simpa using hiff

/-- C1: with a non-empty bot sublist, every completed bot turn goes to
`bots[cursor % len(bots)]` and the cursor advances by exactly one per
completed bot turn; hence over M consecutive completed bot turns starting
from cursor 0, turn k goes to `bots[k % N]`, and each of the N bots speaks
between ⌊M/N⌋ and ⌈M/N⌉ (= (M+N-1)/N) times. -/
theorem mock_round_robin_fair (s : SocketState) (inputs : List Inbound)
    (hb : (gdBots s).length ≠ 0)
    (hhu : ∀ p ∈ gdBots s, p.id ≠ "human_user")
    (hnd : ((gdBots s).map Participant.id).Nodup)
    (ht0 : s.turnIndex = 0)
    (hall : ∀ e ∈ inputs, e.name = "user_message") :
    botTurnIds (runEvents s inputs).2
      = (List.range inputs.length).map
          (fun k => ((gdBots s).getD (k % (gdBots s).length)
              humanParticipant).id) ∧
    (runEvents s inputs).1.turnIndex = inputs.length ∧
    ∀ i : Fin (gdBots s).length,
      inputs.length / (gdBots s).length
          ≤ (botTurnIds (runEvents s inputs).2).count ((gdBots s).get i).id ∧
      (botTurnIds (runEvents s inputs).2).count ((gdBots s).get i).id
          ≤ (inputs.length + (gdBots s).length - 1) / (gdBots s).length := by
  obtain ⟨h1, h2, h3⟩ := run_user_messages inputs s hb hhu hall
  rw [ht0] at h2 h3
  simp only [Nat.zero_add] at h2 h3
  refine ⟨h3, h2, ?_⟩
  intro i
  rw [h3]
  have hpos : 0 < (gdBots s).length := Nat.pos_of_ne_zero hb
  have hcount :
      ((List.range inputs.length).map
          (fun k => ((gdBots s).getD (k % (gdBots s).length)
            humanParticipant).id)).count ((gdBots s).get i).id
        = (List.range inputs.length).countP
            (fun k => decide (k % (gdBots s).length = i.val)) := by
    rw [List.count_eq_countP, List.countP_map]
    apply List.countP_congr
    intro k _
    have hklt : k % (gdBots s).length < (gdBots s).length :=
      Nat.mod_lt _ hpos
    simp only [Function.comp_apply, beq_iff_eq, decide_eq_true_eq]
    have hget : ((gdBots s).get i).id
        = ((gdBots s).getD i.val humanParticipant).id := by
      rw [List.getD_eq_getElem _ _ i.isLt, List.get_eq_getElem]
    rw [hget]
    exact botId_getD_inj s hnd _ _ hklt i.isLt
  rw [hcount]
  exact countP_range_mod_bounds _ _ _ hpos i.isLt

/-- Witness for C1: three user messages among two bots. -/
theorem mock_round_robin_fair_witness :
    ((gdBots sampleSocketState).length ≠ 0 ∧
      sampleSocketState.turnIndex = 0 ∧
      ∀ e ∈ sampleInputs, e.name = "user_message") ∧
    botTurnIds (runEvents sampleSocketState sampleInputs).2
      = (List.range sampleInputs.length).map
          (fun k => ((gdBots sampleSocketState).getD
              (k % (gdBots sampleSocketState).length) humanParticipant).id) ∧
    (runEvents sampleSocketState sampleInputs).1.turnIndex
      = sampleInputs.length :=
  ⟨⟨by decide, rfl, by decide⟩,
   (mock_round_robin_fair sampleSocketState sampleInputs (by decide)
     (by decide) (by decide) rfl (by decide)).1,
   (mock_round_robin_fair sampleSocketState sampleInputs (by decide)
     (by decide) (by decide) rfl (by decide)).2.1⟩

/-- C7: over any serialized run of inbound events, every emitted
`new_message` whose speaker is a bot (neither the human nor the moderator)
is immediately preceded by the `speaker_change` event naming that same bot,
so the `speaker_change` for a bot turn comes strictly before that turn's
`new_message`. -/
theorem speaker_change_before_new_message (s : SocketState)
    (inputs : List Inbound) : pairedOut (runEvents s inputs).2 := by
  induction inputs generalizing s with
  | nil => exact pairedOut_nil
  | cons e rest ih =>
    simp only [runEvents]
    exact pairedOut_append (pairedOut_handleEvent e.oracle s e.name e.data)
      (ih _)

end IntervYou
